import Mathlib

/-!
Verification development for the agent dispatch/orchestration loop of the
asp-mcp repository.  The core under scrutiny is `src/core/agent.py`
(`Agent.ask`, `Agent.task_completed`, `Agent.task_differs`,
`Agent.python_eval`, `Agent.python_exec`), together with the sandboxed
execution helpers (`code/execute_bash_command.py`, `code/execute_python.py`),
the LLM client (`src/asp_mcp_client/llm_client.py`,
`src/asp_llm/llm_client.py`) and the virtual file manager of
`src/clingo_mcp_server/server.py`.

Python's `eval`/`exec` and the network model call cannot be embedded; they
are treated as oracles: the model's raw replies are an input stream, and the
outcome of evaluating a string is supplied by a `PyOracle`.  Everything else
is translated directly from the source.
-/

/-! ## Python string primitives

`startsWithList n h` models "h starts with n"; `inSub n h` models the Python
substring test `n in h`; `pyLower` models `str.lower` (ASCII, as exercised by
the code's all-ASCII prompts and replies). -/

def startsWithList : List Char → List Char → Bool
  | [], _ => true
  | _ :: _, [] => false
  | a :: as, b :: bs => a == b && startsWithList as bs

def inSub (needle : List Char) : List Char → Bool
  | [] => needle == []
  | b :: bs => startsWithList needle (b :: bs) || inSub needle bs

/-- Python's substring containment test `needle in hay` on strings. -/
def pyIn (needle hay : String) : Bool := inSub needle.data hay.data

/-- Python's `str.lower()` restricted to ASCII. -/
def pyLower (s : String) : String := String.mk (s.data.map Char.toLower)

/-- ANSI reset code, `Agent.reset` in `src/core/agent.py`. -/
def ansiReset : String := "\x1b[0m"

/-! ## Python values

A small universe of Python values sufficient for the decisions flowing
through `Agent.ask`: strings, ints, `None`, dicts with string keys and
lists. -/

inductive PyVal where
  | str (s : String)
  | int (n : Int)
  | none
  | dict (entries : List (String × PyVal))
  | list (xs : List PyVal)

/-- Python type name, as it appears in `TypeError` messages. -/
def PyVal.typeName : PyVal → String
  | .str _ => "str"
  | .int _ => "int"
  | .none => "NoneType"
  | .dict _ => "dict"
  | .list _ => "list"

mutual
/-- Python `repr` on the embedded value universe. -/
def pyRepr : PyVal → String
  | .str s => "\x27" ++ s ++ "\x27"
  | .int n => toString n
  | .none => "None"
  | .dict es => "\x7b" ++ pyReprEntries es ++ "\x7d"
  | .list xs => "[" ++ pyReprItems xs ++ "]"

def pyReprEntries : List (String × PyVal) → String
  | [] => ""
  | [(k, v)] => "\x27" ++ k ++ "\x27: " ++ pyRepr v
  | (k, v) :: e :: rest =>
      "\x27" ++ k ++ "\x27: " ++ pyRepr v ++ ", " ++ pyReprEntries (e :: rest)

def pyReprItems : List PyVal → String
  | [] => ""
  | [v] => pyRepr v
  | v :: w :: rest => pyRepr v ++ ", " ++ pyReprItems (w :: rest)
end

/-- Python `str()` applied to a value: the identity on strings, `repr`-style
rendering otherwise (as in `content = str(answer["content"])` and
`return str(messages_to_caller)` in `Agent.ask`). -/
def pyStr : PyVal → String
  | .str s => s
  | v => pyRepr v

/-- Python subscription `v[key]`: a value from a dict, `KeyError` (whose
`str` is the quoted key) when the key is absent, `TypeError` when the value
is not a mapping.  Used for `answer["recipient"]` / `answer["content"]` in
`Agent.ask`, which the source does not guard with any `try`. -/
def PyVal.getItem : PyVal → String → Except String PyVal
  | .dict es, k =>
      match List.lookup k es with
      | some v => Except.ok v
      | Option.none => Except.error ("\x27" ++ k ++ "\x27")
  | v, _ => Except.error ("\x27" ++ v.typeName ++ "\x27 object is not subscriptable")

/-- Python `==` between a value and a string literal, as in
`recipient == "self"`: true exactly for the equal string. -/
def pyEqStr (v : PyVal) (s : String) : Bool :=
  match v with
  | .str t => t == s
  | _ => false

/-! ## Conversation messages and the Model Gateway -/

/-- One history entry `{"role": ..., "content": ...}`. -/
structure Msg where
  role : String
  content : String

/-- State of one `LLM` instance: its construction-time system prompt, the
conversation history, and the stream of raw model replies the environment
will produce (one consumed per call). -/
structure LLMState where
  initialPrompt : String
  history : List Msg
  replies : List String

/-- A fresh `LLM(initial_prompt)`: history holds the single system message
(`src/core/llm.py`, `LLM.__init__`). -/
def llmInit (prompt : String) (replies : List String) : LLMState :=
  { initialPrompt := prompt, history := [Msg.mk "system" prompt], replies := replies }

/-- Modelled from the spec: the Gateway contract of section 4.1,
`ask(turns) -> raw reply` — append the given `(text, role)` turns and the
model's reply to the history and return the raw reply.  `Agent.ask` calls
`self.llm.ask([...])` with lists of `(text, role)` pairs and treats the
result as a raw string, and calls `self.llm.clear_history()`; the `LLM`
revision bundled under `src/core/llm.py` instead takes a single string,
returns an already-`eval`-ed dict, and has no `clear_history` at all, so the
Gateway interface that `Agent.ask` is written against is missing from the
sources and is modelled here from the spec (it matches the
`LLMClient.add_message`/`clear_history` revisions elsewhere in the repo).
`Option.none` signals that the environment has no further reply. -/
def llmAsk (st : LLMState) (turns : List (String × String)) : Option (String × LLMState) :=
  let hist := st.history ++ turns.map (fun t => Msg.mk t.2 t.1)
  match st.replies with
  | [] => Option.none
  | r :: rest =>
      some (r, { st with history := hist ++ [Msg.mk "assistant" r], replies := rest })

/-- Modelled from the spec: `clear_history()` resets the history to the
single system/initial-prompt message (spec section 4.1; absent from
`src/core/llm.py`, present verbatim in both `LLMClient` revisions). -/
def llmClearHistory (st : LLMState) : LLMState :=
  { st with history := [Msg.mk "system" st.initialPrompt] }

/-! ## Oracles for Python evaluation -/

/-- Outcomes of the unembeddable Python primitives, supplied as input:
`evalAnswer s` is the outcome of `eval(s)` on a raw model reply (inside
`Agent.ask`'s parse loop), `evalExpr s` the outcome of
`eval(s, self.python_func)` (inside `Agent.python_eval`), and `execCode s`
the `(stdout, stderr)` captured from `exec(s, self.python_func)` (inside
`Agent.python_exec`); `Except.error e` carries `str(e)` of the raised
exception. -/
structure PyOracle where
  evalAnswer : String → Except String PyVal
  evalExpr : String → Except String PyVal
  execCode : String → Except String (String × String)

/-! ## Agent state -/

/-- The mutable state of one `Agent`: its name, its display color (derived
via an md5 hash in the source — an I/O-free display attribute supplied by
the environment here), the three `LLM` instances (`self.llm`,
`self.llm_finished`, `self.llm_new_task`), the queue of fresh agent states
the environment supplies for lazily-constructed children, and the child
registry `self.agents`. -/
inductive AgentT where
  | mk (name color : String) (llm llmFinished llmNewTask : LLMState)
      (spawnQueue : List AgentT) (children : List (String × AgentT)) : AgentT

def AgentT.name : AgentT → String
  | .mk n _ _ _ _ _ _ => n

def AgentT.color : AgentT → String
  | .mk _ c _ _ _ _ _ => c

def AgentT.llm : AgentT → LLMState
  | .mk _ _ l _ _ _ _ => l

def AgentT.llmFinished : AgentT → LLMState
  | .mk _ _ _ f _ _ _ => f

def AgentT.llmNewTask : AgentT → LLMState
  | .mk _ _ _ _ t _ _ => t

def AgentT.spawnQueue : AgentT → List AgentT
  | .mk _ _ _ _ _ q _ => q

def AgentT.children : AgentT → List (String × AgentT)
  | .mk _ _ _ _ _ _ ch => ch

def AgentT.setLlm : AgentT → LLMState → AgentT
  | .mk n c _ f t q ch, l => .mk n c l f t q ch

def AgentT.setLlmFinished : AgentT → LLMState → AgentT
  | .mk n c l _ t q ch, f => .mk n c l f t q ch

def AgentT.setLlmNewTask : AgentT → LLMState → AgentT
  | .mk n c l f _ q ch, t => .mk n c l f t q ch

def AgentT.setSpawnQueue : AgentT → List AgentT → AgentT
  | .mk n c l f t _ ch, q => .mk n c l f t q ch

def AgentT.setChildren : AgentT → List (String × AgentT) → AgentT
  | .mk n c l f t q _, ch => .mk n c l f t q ch

/-- Replace the value stored under a key in an association list (append when
absent) — Python dict assignment `d[k] = v`. -/
def assocSet {α : Type} : List (String × α) → String → α → List (String × α)
  | [], k, v => [(k, v)]
  | (k2, v2) :: rest, k, v =>
      if k2 == k then (k2, v) :: rest else (k2, v2) :: assocSet rest k v

/-- A freshly constructed `Agent(recipient, self)`: the environment-supplied
seed provides the prompts, reply streams and spawn queue; the constructor
sets the name and starts all three histories from their system prompts with
an empty child registry. -/
def spawnFresh (seed : AgentT) (rname : String) : AgentT :=
  .mk rname seed.color (llmClearHistory seed.llm) (llmClearHistory seed.llmFinished)
    (llmClearHistory seed.llmNewTask) seed.spawnQueue []

/-- `self.agents.setdefault(recipient, Agent(recipient, self))`: return the
registered child, or construct one from the next seed and register it.
`Option.none` when a fresh child is needed but the environment supplied no
seed. -/
def getOrSpawn (ag : AgentT) (rname : String) : Option (AgentT × AgentT) :=
  match List.lookup rname ag.children with
  | some c => some (c, ag)
  | Option.none =>
      match ag.spawnQueue with
      | [] => Option.none
      | seed :: rest =>
          let child := spawnFresh seed rname
          some (child, (ag.setSpawnQueue rest).setChildren (ag.children ++ [(rname, child)]))

/-! ## The small helper methods of `Agent` -/

/-- The success test applied to the oracle replies: `"yes" in answer.lower()`
(`Agent.task_completed` and `Agent.task_differs`). -/
def yesCheck (answer : String) : Bool := pyIn "yes" (pyLower answer)

/-- `Agent.task_completed(task, answers)`: one call on `self.llm_finished`
with the task as user turn and the answers as assistant turns, then the
case-insensitive `"yes"` substring test on the raw reply. -/
def task_completed (st : LLMState) (task : String) (answers : List String) :
    Option (Bool × LLMState) :=
  match llmAsk st ((task, "user") :: answers.map (fun a => (a, "assistant"))) with
  | Option.none => Option.none
  | some (answer, st2) => some (yesCheck answer, st2)

/-- `Agent.task_differs(task, other_task)`: one call on `self.llm_new_task`,
then the same `"yes"` substring test. -/
def task_differs (st : LLMState) (task other : String) : Option (Bool × LLMState) :=
  match llmAsk st [(task, "user"), (other, "assistant")] with
  | Option.none => Option.none
  | some (answer, st2) => some (yesCheck answer, st2)

/-- `Agent.python_eval(content)`: `str(eval(content, self.python_func))` on
success; on any exception the error self-message
`f"{color}[Error evaluating python function: {e} - {content}]{reset}"`.
Always returns an `(text, "assistant")` pair, never propagates. -/
def python_eval (color : String) (orc : PyOracle) (content : String) : String × String :=
  match orc.evalExpr content with
  | Except.ok v => (pyStr v, "assistant")
  | Except.error e =>
      (color ++ "[Error evaluating python function: " ++ e ++ " - " ++ content ++ "]" ++
        ansiReset, "assistant")

/-- `Agent.python_exec(content)`: captured stdout, with
`f"{output}\n[stderr]: {error}"` when stderr is nonempty; on any exception
the error self-message
`f"{color}[Error executing python function: {e} - {content}]{reset}"`. -/
def python_exec (color : String) (orc : PyOracle) (content : String) : String × String :=
  match orc.execCode content with
  | Except.ok (out, err) =>
      ((if err == "" then out else out ++ "\n[stderr]: " ++ err), "assistant")
  | Except.error e =>
      (color ++ "[Error executing python function: " ++ e ++ " - " ++ content ++ "]" ++
        ansiReset, "assistant")

/-! ## The `Agent.ask` loop -/

/-- Why a run of the interpreter stops without a Python return value:
`replies` — the environment supplied no further model reply or child seed;
`fuel` — the fuel bound was reached (the source loop is unbounded);
`pyErr` — an uncaught Python exception propagates out of `Agent.ask`,
carrying `str(e)`. -/
inductive Abort where
  | replies
  | fuel
  | pyErr (msg : String)

/-- The correction prompt of `Agent.ask`'s parse loop (the literal string at
`agent.py:196`, completed with `str(e)`). -/
def correctionPrompt : String := "Please return a dictionary with the messages, error: "

/-- The corrective instruction injected when `task_completed` says no
(`agent.py:228-229`). -/
def retryMessage : String :=
  "The task is not complete. Try harder and find answers yourself. Make a plan, use the internet, delegate tasks." ++
    " Dont go in circles."

/-- The inner `while True: try: answer = eval(answer_str); break except ...`
loop of `Agent.ask`: evaluate the current reply; when `eval` raises, re-ask
the model with the correction prompt and retry with the new reply.  Note the
loop only guards `eval` itself — whatever value `eval` produces is returned
for dispatch unchecked. -/
def parseRetry (orc : PyOracle) : Nat → LLMState → String → Except Abort (PyVal × LLMState)
  | 0, st, answerStr =>
    match orc.evalAnswer answerStr with
    | Except.ok v => Except.ok (v, st)
    | Except.error _ => Except.error Abort.fuel
  | Nat.succ f, st, answerStr =>
    match orc.evalAnswer answerStr with
    | Except.ok v => Except.ok (v, st)
    | Except.error e =>
        match llmAsk st [(correctionPrompt ++ e, "user")] with
        | Option.none => Except.error Abort.replies
        | some (a2, st2) => parseRetry orc f st2 a2

/-- Outcome of routing one decision: updated agent, the new
`message_to_self` (if any), and the content appended to
`messages_to_caller` (if any). -/
structure RouteOut where
  agent : AgentT
  messageToSelf : Option (String × String)
  callerMsg : Option String

/-- The routing `if`/`elif` chain of `Agent.ask` (`agent.py:200-221`), after
`recipient = answer["recipient"]` and `content = str(answer["content"])`
have been extracted.  `askChild` performs the recursive `agent.ask(content)`
on a child. -/
def dispatch (orc : PyOracle) (askChild : AgentT → String → Except Abort (String × AgentT))
    (ag : AgentT) (msg : String) (recipient : PyVal) (content : String) :
    Except Abort RouteOut :=
  if pyEqStr recipient "self" then
    Except.ok ⟨ag, some (content, "assistant"), Option.none⟩
  else if pyEqStr recipient "clear" then
    Except.ok ⟨ag.setLlm (llmClearHistory ag.llm), Option.none, Option.none⟩
  else if pyEqStr recipient "caller" then
    Except.ok ⟨ag, Option.none, some content⟩
  else if pyEqStr recipient "python_eval" then
    Except.ok ⟨ag, some (python_eval ag.color orc content), Option.none⟩
  else if pyEqStr recipient "python_exec" then
    Except.ok ⟨ag, some (python_exec ag.color orc content), Option.none⟩
  else if pyEqStr recipient ag.name then
    Except.ok ⟨ag, some (content, "assistant"), Option.none⟩
  else
    match task_differs ag.llmNewTask msg content with
    | Option.none => Except.error Abort.replies
    | some (differs, newSt) =>
        if differs then
          match recipient with
          | .str rname =>
              match getOrSpawn (ag.setLlmNewTask newSt) rname with
              | Option.none => Except.error Abort.replies
              | some (child, ag2) =>
                  match askChild child content with
                  | Except.error a => Except.error a
                  | Except.ok (resp, child2) =>
                      Except.ok ⟨ag2.setChildren (assocSet ag2.children rname child2),
                        some (resp, "assistant"), Option.none⟩
          | _ =>
              Except.error (Abort.pyErr
                ("unhashable or invalid agent name of type \x27" ++ recipient.typeName ++ "\x27"))
        else
          Except.ok ⟨ag.setLlmNewTask newSt,
            some (ag.color ++ "Skipping message to " ++ pyStr recipient ++
              " as it is not a new task. Do it yourself." ++ ansiReset, "user"),
            Option.none⟩

/-- Extraction plus routing: `recipient = answer["recipient"]` and
`content = str(answer["content"])` (`agent.py:198-199`) — both raise out of
`Agent.ask` when they fail — followed by the dispatch chain. -/
def routeDecision (orc : PyOracle) (askChild : AgentT → String → Except Abort (String × AgentT))
    (ag : AgentT) (msg : String) (answer : PyVal) : Except Abort RouteOut :=
  match answer.getItem "recipient" with
  | Except.error e => Except.error (Abort.pyErr e)
  | Except.ok recipient =>
      match answer.getItem "content" with
      | Except.error e => Except.error (Abort.pyErr e)
      | Except.ok cv => dispatch orc askChild ag msg recipient (pyStr cv)

/-- The inner `while message_to_self:` loop of `Agent.ask`: send the pending
self-message, parse (with retry) the reply, route the decision, collect any
caller-bound content, and continue while a new self-message exists. -/
def innerLoop (orc : PyOracle) (askChild : AgentT → String → Except Abort (String × AgentT)) :
    Nat → AgentT → String → Option (String × String) → List String →
    Except Abort (AgentT × List String)
  | _, ag, _, Option.none, callers => Except.ok (ag, callers)
  | 0, _, _, some _, _ => Except.error Abort.fuel
  | Nat.succ fuel, ag, msg, some m, callers =>
      match llmAsk ag.llm [m] with
      | Option.none => Except.error Abort.replies
      | some (answerStr, llm2) =>
          match parseRetry orc fuel llm2 answerStr with
          | Except.error a => Except.error a
          | Except.ok (v, llm3) =>
              match routeDecision orc askChild (ag.setLlm llm3) msg v with
              | Except.error a => Except.error a
              | Except.ok out =>
                  innerLoop orc askChild fuel out.agent msg out.messageToSelf
                    (callers ++ out.callerMsg.toList)

/-- The outer `while True:` loop of `Agent.ask`: run the dispatch loop, then
consult `task_completed`; when satisfied return `str(messages_to_caller)`,
otherwise replace `msg` by the corrective instruction and loop. -/
def outerLoop (orc : PyOracle) (askChild : AgentT → String → Except Abort (String × AgentT)) :
    Nat → AgentT → String → Option (String × String) → List String →
    Except Abort (String × AgentT)
  | 0, _, _, _, _ => Except.error Abort.fuel
  | Nat.succ fuel, ag, msg, mts, callers =>
      match innerLoop orc askChild fuel ag msg mts callers with
      | Except.error a => Except.error a
      | Except.ok (ag2, callers2) =>
          match task_completed ag2.llmFinished msg callers2 with
          | Option.none => Except.error Abort.replies
          | some (done, finSt) =>
              let ag3 := ag2.setLlmFinished finSt
              if done then
                Except.ok (pyStr (PyVal.list (callers2.map PyVal.str)), ag3)
              else
                outerLoop orc askChild fuel ag3 retryMessage (some (retryMessage, "user"))
                  callers2

/-- `Agent.ask(msg)`: seed `message_to_self = (msg, "user")`,
`messages_to_caller = []`, and run the loops; child agents recurse with the
remaining fuel. -/
def ask (orc : PyOracle) : Nat → AgentT → String → Except Abort (String × AgentT)
  | 0, _, _ => Except.error Abort.fuel
  | Nat.succ fuel, ag, msg =>
      outerLoop orc (ask orc fuel) fuel ag msg (some (msg, "user")) []

/-! ## Sandboxed execution helpers (`code/execute_bash_command.py`,
`code/execute_python.py`) -/

/-- Outcome of the `subprocess.run` call: normal completion, a
`TimeoutExpired` (whose partially captured stdout may be absent), or any
other exception with its `str(e)`. -/
inductive RunOutcome where
  | completed (stdout stderr : String) (returncode : Int)
  | timeout (stdoutPartial : Option String)
  | failed (errText : String)

/-- The structured result both helpers build (then `json.dumps`-serialize):
stdout (JSON `null` when the timeout captured none), stderr, return code and
success flag. -/
structure ExecOutput where
  stdout : Option String
  stderr : String
  returncode : Int
  success : Bool

/-- The `timeout=10` argument of `subprocess.run` in
`execute_bash_command`. -/
def bashTimeoutSeconds : Nat := 10

/-- The `timeout=10` argument of `subprocess.run` in
`execute_python_code`. -/
def pythonTimeoutSeconds : Nat := 10

/-- `execute_bash_command`, as a function of the subprocess outcome: every
branch of the source's `try`/`except` chain produces a structured output
(the final `json.dumps` fallback is unreachable for string-valued fields),
so nothing raises. -/
def execute_bash_command : RunOutcome → ExecOutput
  | .completed o e rc => ⟨some o, e, rc, rc == 0⟩
  | .timeout o => ⟨o, "Timeout expired", -1, false⟩
  | .failed m => ⟨some "", m, -1, false⟩

/-- `execute_python_code`, as a function of the subprocess outcome; the
handler chain is identical to `execute_bash_command`. -/
def execute_python_code : RunOutcome → ExecOutput
  | .completed o e rc => ⟨some o, e, rc, rc == 0⟩
  | .timeout o => ⟨o, "Timeout expired", -1, false⟩
  | .failed m => ⟨some "", m, -1, false⟩

/-! ## `LLMClient.clear_history` (`src/asp_mcp_client/llm_client.py` and
`src/asp_llm/llm_client.py`, textually identical in both revisions) -/

structure LLMClientState where
  initialPrompt : String
  history : List Msg

/-- `clear_history`: `self.history = [{"role": "system", "content":
self.initial_prompt}]`. -/
def clear_history (st : LLMClientState) : LLMClientState :=
  { st with history := [Msg.mk "system" st.initialPrompt] }

/-! ## `VirtualFileManager` (`src/clingo_mcp_server/server.py`)

Python dicts with string keys, insertion-ordered, modelled as association
lists with unique keys. -/

/-- Python `k in d` on a dict. -/
def hasKey {α : Type} (d : List (String × α)) (k : String) : Bool :=
  d.any (fun p => p.1 == k)

/-- The file store `self.files`: file name to parts dict (part key, given by
`str(index)`, to content). -/
structure VFS where
  files : List (String × List (String × String))

/-- `VirtualFileManager.create_file`: `self.files[name] = {}` (resets the
parts even when the file exists). -/
def create_file (fs : VFS) (name : String) : VFS :=
  ⟨assocSet fs.files name []⟩

/-- The parts dict of a file (empty when absent, matching the state
`create_file` would install). -/
def partsOf (fs : VFS) (name : String) : List (String × String) :=
  (List.lookup name fs.files).getD []

/-- `VirtualFileManager.write_to_file`: create the file when absent; when
`index is None` use `len(self.files[name])`; store under `str(index)`. -/
def write_to_file (fs : VFS) (name content : String) (index : Option Int) : VFS :=
  let fs2 := if hasKey fs.files name then fs else create_file fs name
  let parts := partsOf fs2 name
  let idx : Int := index.getD (parts.length : Int)
  ⟨assocSet fs2.files name (assocSet parts (toString idx) content)⟩

/-- `VirtualFileManager.delete_part_of_file`: delete the key `str(index)`
when the file and the part exist. -/
def delete_part_of_file (fs : VFS) (name : String) (index : Int) : VFS :=
  if hasKey fs.files name && hasKey (partsOf fs name) (toString index) then
    ⟨assocSet fs.files name ((partsOf fs name).filter (fun p => !(p.1 == toString index)))⟩
  else fs

/-! ## Concrete runs

Environments used to exercise the interpreter on the spec's scenarios.  The
`evalAnswer` tables record genuine Python `eval` outcomes for the concrete
reply strings involved (`eval('{"recipient": ...}')` yields the dict,
`eval("42")` yields `42`, `eval("bad")` raises `NameError`). -/

/-- An oracle for runs that never touch Python evaluation. -/
def orcSilent : PyOracle :=
  { evalAnswer := fun _ => Except.error "SyntaxError: invalid syntax",
    evalExpr := fun _ => Except.error "SyntaxError: invalid syntax",
    execCode := fun _ => Except.error "SyntaxError: invalid syntax" }

/-- Reply text of a well-formed `self`/`hello` decision. -/
def replySelfHello : String := "\x7b\"recipient\": \"self\", \"content\": \"hello\"\x7d"

/-- Reply text of a well-formed `caller`/`hello` decision. -/
def replyCallerHello : String := "\x7b\"recipient\": \"caller\", \"content\": \"hello\"\x7d"

/-- Oracle for the "echo hello" scenario. -/
def orcEcho : PyOracle :=
  { evalAnswer := fun s =>
      if s == replySelfHello then
        Except.ok (PyVal.dict [("recipient", PyVal.str "self"), ("content", PyVal.str "hello")])
      else if s == replyCallerHello then
        Except.ok (PyVal.dict [("recipient", PyVal.str "caller"), ("content", PyVal.str "hello")])
      else Except.error "SyntaxError: invalid syntax",
    evalExpr := fun _ => Except.error "SyntaxError: invalid syntax",
    execCode := fun _ => Except.error "SyntaxError: invalid syntax" }

/-- Agent for the "echo hello" scenario: the model will reply with the
`self` decision, then the `caller` decision; the Completion Oracle's model
replies "Yes, done.". -/
def agEcho : AgentT :=
  .mk "main" "" (llmInit "prompt" [replySelfHello, replyCallerHello])
    (llmInit "finished" ["Yes, done."]) (llmInit "newtask" []) [] []

/-- Oracle whose only model reply is the string `"42"`; `eval("42")`
succeeds with the integer `42` (not a mapping). -/
def orcIntReply : PyOracle :=
  { evalAnswer := fun s =>
      if s == "42" then Except.ok (PyVal.int 42)
      else Except.error "SyntaxError: invalid syntax",
    evalExpr := fun _ => Except.error "SyntaxError: invalid syntax",
    execCode := fun _ => Except.error "SyntaxError: invalid syntax" }

/-- Agent whose single model reply is `"42"`. -/
def agIntReply : AgentT :=
  .mk "main" "" (llmInit "prompt" ["42"]) (llmInit "finished" []) (llmInit "newtask" []) [] []

/-- Reply text of a mapping that lacks the `recipient` key. -/
def replyNoRecipient : String := "\x7b\"content\": \"hi\"\x7d"

/-- Oracle whose only model reply evaluates to a dict missing
`"recipient"`. -/
def orcNoRecipient : PyOracle :=
  { evalAnswer := fun s =>
      if s == replyNoRecipient then Except.ok (PyVal.dict [("content", PyVal.str "hi")])
      else Except.error "SyntaxError: invalid syntax",
    evalExpr := fun _ => Except.error "SyntaxError: invalid syntax",
    execCode := fun _ => Except.error "SyntaxError: invalid syntax" }

/-- Agent whose single model reply is the no-`recipient` mapping text. -/
def agNoRecipient : AgentT :=
  .mk "main" "" (llmInit "prompt" [replyNoRecipient]) (llmInit "finished" [])
    (llmInit "newtask" []) [] []

/-- `str(e)` of the `NameError` that `eval("bad")` raises. -/
def nameErrorBad : String := "name \x27bad\x27 is not defined"

/-- Oracle on which `eval` of the reply `"bad"` raises a `NameError`. -/
def orcNameError : PyOracle :=
  { evalAnswer := fun s =>
      if s == "bad" then Except.error nameErrorBad
      else Except.error "SyntaxError: invalid syntax",
    evalExpr := fun _ => Except.error "SyntaxError: invalid syntax",
    execCode := fun _ => Except.error "SyntaxError: invalid syntax" }

/-- A gateway state with one further reply pending. -/
def stOneReply : LLMState := llmInit "prompt" ["second reply"]

/-- Oracle on which `eval("1/0", self.python_func)` raises
`ZeroDivisionError`, whose `str` is "division by zero". -/
def orcDivZero : PyOracle :=
  { evalAnswer := fun _ => Except.error "SyntaxError: invalid syntax",
    evalExpr := fun s =>
      if s == "1/0" then Except.error "division by zero" else Except.ok PyVal.none,
    execCode := fun s =>
      if s == "1/0" then Except.error "division by zero" else Except.ok ("", "") }

/-- A child-ask stub that answers `"done"` and leaves the child
unchanged. -/
def ackDone : AgentT → String → Except Abort (String × AgentT) :=
  fun child _ => Except.ok ("done", child)

/-- Agent used to exercise the distinctness gate: the `llm_new_task` model
will reply "no - same task" (no "yes" substring). -/
def agGate : AgentT :=
  .mk "main" "" (llmInit "prompt" []) (llmInit "finished" [])
    (llmInit "newtask" ["no - same task"]) [] []

/-- Virtual file system after `write("f", "a")`, `write("f", "b")` (parts
`"0"` and `"1"`) and `delete_part_of_file("f", 0)`: only part `"1"`
remains, so the next auto-indexed write targets the existing key `"1"`. -/
def vfsGap : VFS :=
  delete_part_of_file
    (write_to_file (write_to_file ⟨[]⟩ "f" "a" Option.none) "f" "b" Option.none) "f" 0

/-! ## Supporting lemmas -/

theorem startsWithList_iff (n : List Char) : ∀ h, startsWithList n h = true ↔ n <+: h := by
  induction n with
  | nil => intro h; simp [startsWithList]
  | cons a as ih =>
    intro h
    cases h with
    | nil => simp [startsWithList]
    | cons b bs => simp [startsWithList, List.cons_prefix_cons, ih]

theorem inSub_iff (n : List Char) : ∀ h, inSub n h = true ↔ n <:+: h := by
  intro h
  induction h with
  | nil => simp [inSub]
  | cons b bs ih => simp [inSub, List.infix_cons_iff, startsWithList_iff, ih]

theorem pyIn_iff (n h : String) : pyIn n h = true ↔ n.data <:+: h.data :=
  inSub_iff n.data h.data

theorem lookup_eq_none_of_hasKey_false {α : Type} (d : List (String × α)) (k : String)
    (h : hasKey d k = false) : List.lookup k d = Option.none := by
  induction d with
  | nil => rfl
  | cons p rest ih =>
    rcases p with ⟨k2, v2⟩
    have hcons : ((k2 == k) || hasKey rest k) = false := h
    rw [Bool.or_eq_false_iff] at hcons
    obtain ⟨h1, h2⟩ := hcons
    have hk : (k == k2) = false := by
      simp only [beq_eq_false_iff_ne] at h1 ⊢
      exact Ne.symm h1
    simp [List.lookup, hk, ih h2]

theorem assocSet_lookup_self {α : Type} (d : List (String × α)) (k : String) (v : α) :
    List.lookup k (assocSet d k v) = some v := by
  induction d with
  | nil => simp [assocSet, List.lookup]
  | cons p rest ih =>
    rcases p with ⟨k2, v2⟩
    by_cases h : k2 = k
    · subst h
      simp [assocSet, List.lookup]
    · have hb : (k2 == k) = false := by simp [h]
      have hb2 : (k == k2) = false := by
        simp only [beq_eq_false_iff_ne]
        exact Ne.symm h
      simp [assocSet, hb, List.lookup, hb2, ih]

theorem assocSet_length_of_hasKey {α : Type} (d : List (String × α)) (k : String) (v : α)
    (h : hasKey d k = true) : (assocSet d k v).length = d.length := by
  induction d with
  | nil => simp [hasKey] at h
  | cons p rest ih =>
    rcases p with ⟨k2, v2⟩
    by_cases hk : k2 = k
    · subst hk
      simp [assocSet]
    · have hb : (k2 == k) = false := by simp [hk]
      have hcons : ((k2 == k) || hasKey rest k) = true := h
      rw [hb, Bool.false_or] at hcons
      simp [assocSet, hb, ih hcons]

/-! ## The claims -/

/-- Claim C1, counterexample: the claim says every reply whose parse fails
(invalid structure, not a mapping, or missing the `recipient`/`content`
keys) is re-asked and never crashes `Agent.ask`.  On the code this is false:
the retry loop only guards `eval` itself.  With the single model reply
`"42"` (which `eval` happily turns into the non-mapping `42`),
`answer["recipient"]` raises an uncaught `TypeError` and `Agent.ask`
aborts; with a reply evaluating to a mapping that lacks `"recipient"`, it
aborts with the uncaught `KeyError`. -/
theorem agent_ask_crashes_on_unchecked_reply :
    ask orcIntReply 3 agIntReply "task" =
      Except.error (Abort.pyErr "\x27int\x27 object is not subscriptable") ∧
    ask orcNoRecipient 3 agNoRecipient "task" =
      Except.error (Abort.pyErr "\x27recipient\x27") := ⟨rfl, rfl⟩

/-- Claim C1, amended: when `eval` of a raw reply raises, `Agent.ask` does
not crash — it re-asks the model with the literal correction instruction
and retries with the next reply; and any decision value the parse loop
hands to the router arose from a reply whose `eval` succeeded, so an
`eval`-failing reply is never dispatched.  (Replies whose `eval` succeeds
with a non-mapping or with a mapping missing the required keys are
dispatched unchecked and crash `Agent.ask`; see the counterexample.) -/
theorem agent_ask_retries_on_eval_failure
    (orc : PyOracle) (fuel : Nat) (st : LLMState) (a e : String)
    (h : orc.evalAnswer a = Except.error e) :
    (parseRetry orc (fuel + 1) st a =
      match llmAsk st [(correctionPrompt ++ e, "user")] with
      | Option.none => Except.error Abort.replies
      | some p => parseRetry orc fuel p.2 p.1) ∧
    ∀ f2 st2 a2 v st3, parseRetry orc f2 st2 a2 = Except.ok (v, st3) →
      ∃ b, orc.evalAnswer b = Except.ok v := by
  constructor
  · simp only [parseRetry, h]
    rcases hq : llmAsk st [(correctionPrompt ++ e, "user")] with _ | ⟨a2, st2⟩
    · rfl
    · rfl
  · intro f2
    induction f2 with
    | zero =>
      intro st2 a2 v st3 hp
      cases ho : orc.evalAnswer a2 with
      | ok v2 =>
        simp [parseRetry, ho] at hp
        exact ⟨a2, by rw [ho, hp.1]⟩
      | error e2 => simp [parseRetry, ho] at hp
    | succ f ih =>
      intro st2 a2 v st3 hp
      cases ho : orc.evalAnswer a2 with
      | ok v2 =>
        simp [parseRetry, ho] at hp
        exact ⟨a2, by rw [ho, hp.1]⟩
      | error e2 =>
        simp only [parseRetry, ho] at hp
        rcases hq : llmAsk st2 [(correctionPrompt ++ e2, "user")] with _ | ⟨a3, st4⟩
        · rw [hq] at hp; exact absurd hp (by simp)
        · rw [hq] at hp; exact ih st4 a3 v st3 hp

/-- Claim C1, witness: the amended theorem applied to the reply `"bad"`,
whose `eval` raises a `NameError`. -/
theorem agent_ask_retries_on_eval_failure_witness :
    (parseRetry orcNameError 1 stOneReply "bad" =
      match llmAsk stOneReply [(correctionPrompt ++ nameErrorBad, "user")] with
      | Option.none => Except.error Abort.replies
      | some p => parseRetry orcNameError 0 p.2 p.1) ∧
    ∀ f2 st2 a2 v st3, parseRetry orcNameError f2 st2 a2 = Except.ok (v, st3) →
      ∃ b, orcNameError.evalAnswer b = Except.ok v :=
  agent_ask_retries_on_eval_failure orcNameError 0 stOneReply "bad" nameErrorBad rfl

/-- Claim C2: a well-formed decision with recipient `self` routes to a new
self-message carrying exactly the decision's content with role
`"assistant"`, and sending a self-message `(c, "assistant")` appends to the
Gateway history a turn of role `"assistant"` whose content is exactly `c`
(followed by the model's reply turn). -/
theorem self_decision_appends_assistant_turn :
    (∀ orc ac ag msg c, routeDecision orc ac ag msg
        (PyVal.dict [("recipient", PyVal.str "self"), ("content", PyVal.str c)]) =
        Except.ok ⟨ag, some (c, "assistant"), Option.none⟩)
    ∧ (∀ orc ac ag msg c, dispatch orc ac ag msg (PyVal.str "self") c =
        Except.ok ⟨ag, some (c, "assistant"), Option.none⟩)
    ∧ (∀ ip h c r rest, llmAsk ⟨ip, h, r :: rest⟩ [(c, "assistant")] =
        some (r, ⟨ip, h ++ [Msg.mk "assistant" c, Msg.mk "assistant" r], rest⟩)) := by
  refine ⟨fun orc ac ag msg c => rfl, fun orc ac ag msg c => rfl, ?_⟩
  intro ip h c r rest
  simp [llmAsk]

/-- Claim C3: a decision with recipient `clear` invokes the Gateway's
`clear_history()` — leaving exactly the system/initial-prompt message — and
produces no new self-message and no caller message, so the inner dispatch
loop exits (third conjunct) unless an earlier self-message exists. -/
theorem clear_decision_resets_history :
    (∀ orc ac ag msg cv, routeDecision orc ac ag msg
        (PyVal.dict [("recipient", PyVal.str "clear"), ("content", cv)]) =
        Except.ok ⟨ag.setLlm (llmClearHistory ag.llm), Option.none, Option.none⟩)
    ∧ (∀ ag : AgentT, (llmClearHistory ag.llm).history = [Msg.mk "system" ag.llm.initialPrompt])
    ∧ (∀ orc ac fuel ag msg callers, innerLoop orc ac fuel ag msg Option.none callers =
        Except.ok (ag, callers)) := by
  refine ⟨fun orc ac ag msg cv => rfl, fun ag => rfl, ?_⟩
  intro orc ac fuel ag msg callers
  cases fuel <;> rfl

/-- Claim C4: the Completion Oracle's check returns true exactly when the
raw reply contains the case-insensitive substring "yes" (first conjunct, an
independent characterisation via list infixes of the lowered reply); empty,
"no" and "maybe" yield false, "Yes, done." yields true; and
`task_completed` is precisely this check applied to the raw reply of one
`llm_finished` call. -/
theorem task_completed_yes_substring :
    (∀ answer : String, yesCheck answer = true ↔ "yes".data <:+: (pyLower answer).data)
    ∧ yesCheck "" = false ∧ yesCheck "no" = false ∧ yesCheck "maybe" = false
    ∧ yesCheck "Yes, done." = true
    ∧ ∀ st task answers, task_completed st task answers =
        (llmAsk st ((task, "user") :: answers.map (fun a => (a, "assistant")))).map
          (fun p => (yesCheck p.1, p.2)) := by
  refine ⟨fun answer => pyIn_iff _ _, rfl, rfl, rfl, rfl, ?_⟩
  intro st task answers
  unfold task_completed
  rcases llmAsk st ((task, "user") :: answers.map (fun a => (a, "assistant"))) with _ | ⟨a, s⟩
  · rfl
  · rfl

/-- Claim C5: `python_eval` and `python_exec` always return an
`(text, "assistant")` self-message — no exception escapes — and on failure
the message contains both the literal failed expression/script text and the
error description; moreover the router wraps them without any further
failure path. -/
theorem python_eval_exec_never_raise (orc : PyOracle) (color content : String) :
    ((python_eval color orc content).2 = "assistant") ∧
    ((python_exec color orc content).2 = "assistant") ∧
    (∀ e, orc.evalExpr content = Except.error e →
      content.data <:+: (python_eval color orc content).1.data ∧
      e.data <:+: (python_eval color orc content).1.data) ∧
    (∀ e, orc.execCode content = Except.error e →
      content.data <:+: (python_exec color orc content).1.data ∧
      e.data <:+: (python_exec color orc content).1.data) ∧
    (∀ ac ag msg, routeDecision orc ac ag msg
        (PyVal.dict [("recipient", PyVal.str "python_eval"), ("content", PyVal.str content)]) =
        Except.ok ⟨ag, some (python_eval ag.color orc content), Option.none⟩) ∧
    (∀ ac ag msg, routeDecision orc ac ag msg
        (PyVal.dict [("recipient", PyVal.str "python_exec"), ("content", PyVal.str content)]) =
        Except.ok ⟨ag, some (python_exec ag.color orc content), Option.none⟩) := by
  refine ⟨?_, ?_, ?_, ?_, fun ac ag msg => rfl, fun ac ag msg => rfl⟩
  · unfold python_eval; rcases orc.evalExpr content with v | e
    · rfl
    · rfl
  · unfold python_exec
    cases orc.execCode content with
    | ok p => cases p; rfl
    | error e => rfl
  · intro e he
    simp only [python_eval, he]
    constructor
    · exact ⟨color.data ++ "[Error evaluating python function: ".data ++ e.data ++ " - ".data,
        "]".data ++ ansiReset.data, by simp [String.data_append, List.append_assoc]⟩
    · exact ⟨color.data ++ "[Error evaluating python function: ".data,
        (" - " ++ content ++ "]" ++ ansiReset).data,
        by simp [String.data_append, List.append_assoc]⟩
  · intro e he
    simp only [python_exec, he]
    constructor
    · exact ⟨color.data ++ "[Error executing python function: ".data ++ e.data ++ " - ".data,
        "]".data ++ ansiReset.data, by simp [String.data_append, List.append_assoc]⟩
    · exact ⟨color.data ++ "[Error executing python function: ".data,
        (" - " ++ content ++ "]" ++ ansiReset).data,
        by simp [String.data_append, List.append_assoc]⟩

/-- Claim C5, witness: for the expression `"1/0"` (whose evaluation raises
`ZeroDivisionError`, `str` "division by zero") the self-message contains
both the literal expression and the division-by-zero description. -/
theorem python_eval_exec_never_raise_witness :
    orcDivZero.evalExpr "1/0" = Except.error "division by zero" ∧
    "1/0".data <:+: (python_eval "" orcDivZero "1/0").1.data ∧
    "division by zero".data <:+: (python_eval "" orcDivZero "1/0").1.data :=
  ⟨rfl, ((python_eval_exec_never_raise orcDivZero "" "1/0").2.2.1 "division by zero" rfl).1,
    ((python_eval_exec_never_raise orcDivZero "" "1/0").2.2.1 "division by zero" rfl).2⟩

/-- Claim C6: on the "echo hello" scenario (first decision `self`/"hello",
second decision `caller`/"hello", Completion-Oracle reply "Yes, done."),
`Agent.ask` terminates and returns `str(["hello"])`, i.e. the accumulated
caller-bound results in arrival order; rendered, that string is
`['hello']`.  The last two conjuncts show a `caller` decision is appended
unmutated to the caller list and reinjects nothing. -/
theorem echo_hello_scenario :
    (∃ ag2, ask orcEcho 5 agEcho "echo hello" =
      Except.ok (pyStr (PyVal.list [PyVal.str "hello"]), ag2)) ∧
    pyStr (PyVal.list [PyVal.str "hello"]) = "[\x27hello\x27]" ∧
    (∀ orc ac ag msg c, dispatch orc ac ag msg (PyVal.str "caller") c =
        Except.ok ⟨ag, Option.none, some c⟩) ∧
    (∀ orc ac ag msg c, routeDecision orc ac ag msg
        (PyVal.dict [("recipient", PyVal.str "caller"), ("content", PyVal.str c)]) =
        Except.ok ⟨ag, Option.none, some c⟩) := by
  refine ⟨⟨_, rfl⟩, ?_, fun orc ac ag msg c => rfl, fun orc ac ag msg c => rfl⟩
  simp [pyStr, pyRepr, pyReprItems]

/-- Claim C7: for a recipient label that is none of the built-ins and not
the agent's own name, the router first consults the distinctness oracle;
when the forwarded content is judged not different the router substitutes
the "Do it yourself" self-message and neither spawns nor forwards, and only
when judged different is the child looked up or lazily created (and
registered) and its `ask` result fed back as the next self-message. -/
theorem unknown_recipient_distinctness_gate
    (orc : PyOracle) (ac : AgentT → String → Except Abort (String × AgentT))
    (ag : AgentT) (msg content rname : String)
    (h1 : rname ≠ "self") (h2 : rname ≠ "clear") (h3 : rname ≠ "caller")
    (h4 : rname ≠ "python_eval") (h5 : rname ≠ "python_exec") (h6 : rname ≠ ag.name)
    (y : String) (rest : List String) (hq : ag.llmNewTask.replies = y :: rest) :
    ∃ stN, task_differs ag.llmNewTask msg content = some (yesCheck y, stN) ∧
      (yesCheck y = false →
        dispatch orc ac ag msg (PyVal.str rname) content =
          Except.ok ⟨ag.setLlmNewTask stN,
            some (ag.color ++ "Skipping message to " ++ rname ++
              " as it is not a new task. Do it yourself." ++ ansiReset, "user"),
            Option.none⟩) ∧
      (yesCheck y = true →
        ∀ child ag2, getOrSpawn (ag.setLlmNewTask stN) rname = some (child, ag2) →
        ∀ resp child2, ac child content = Except.ok (resp, child2) →
          dispatch orc ac ag msg (PyVal.str rname) content =
            Except.ok ⟨ag2.setChildren (assocSet ag2.children rname child2),
              some (resp, "assistant"), Option.none⟩) := by
  have hne : ∀ s : String, rname ≠ s → pyEqStr (PyVal.str rname) s = false := by
    intro s hs
    simp [pyEqStr, hs]
  obtain ⟨stN, hd⟩ : ∃ stN, task_differs ag.llmNewTask msg content = some (yesCheck y, stN) := by
    simp only [task_differs, llmAsk, hq]
    exact ⟨_, rfl⟩
  refine ⟨stN, hd, ?_, ?_⟩
  · intro hfalse
    simp only [dispatch, hne _ h1, hne _ h2, hne _ h3, hne _ h4, hne _ h5, hne _ h6,
      Bool.false_eq_true, if_false, hd, hfalse]
    rfl
  · intro htrue child ag2 hspawn resp child2 hac
    simp only [dispatch, hne _ h1, hne _ h2, hne _ h3, hne _ h4, hne _ h5, hne _ h6,
      Bool.false_eq_true, if_false, hd, htrue, if_true, hspawn, hac]

/-- Claim C7, witness: the unknown label `agent_helper`, with the
distinctness oracle replying "no - same task", makes the skip branch of the
theorem bite. -/
theorem unknown_recipient_distinctness_gate_witness :
    ∃ stN, task_differs agGate.llmNewTask "taskA" "taskA again" =
        some (yesCheck "no - same task", stN) ∧
      (yesCheck "no - same task" = false →
        dispatch orcSilent ackDone agGate "taskA" (PyVal.str "agent_helper") "taskA again" =
          Except.ok ⟨agGate.setLlmNewTask stN,
            some (agGate.color ++ "Skipping message to " ++ "agent_helper" ++
              " as it is not a new task. Do it yourself." ++ ansiReset, "user"),
            Option.none⟩) ∧
      (yesCheck "no - same task" = true →
        ∀ child ag2, getOrSpawn (agGate.setLlmNewTask stN) "agent_helper" = some (child, ag2) →
        ∀ resp child2, ackDone child "taskA again" = Except.ok (resp, child2) →
          dispatch orcSilent ackDone agGate "taskA" (PyVal.str "agent_helper") "taskA again" =
            Except.ok ⟨ag2.setChildren (assocSet ag2.children "agent_helper" child2),
              some (resp, "assistant"), Option.none⟩) :=
  unknown_recipient_distinctness_gate orcSilent ackDone agGate "taskA" "taskA again"
    "agent_helper" (by decide) (by decide) (by decide) (by decide) (by decide) (by decide)
    "no - same task" [] rfl

/-- Claim C8: both sandboxed helpers always produce the structured
stdout/stderr/returncode/success record, with success exactly when the
return code is zero; a timeout is the distinct non-fatal record with stderr
"Timeout expired", return code `-1` and success false; any other exception
also yields a structured record; and both pass the 10-second timeout to
`subprocess.run`. -/
theorem execute_helpers_structured_output :
    (∀ o, (execute_bash_command o).success = ((execute_bash_command o).returncode == 0)) ∧
    (∀ o, (execute_python_code o).success = ((execute_python_code o).returncode == 0)) ∧
    (∀ o e rc, execute_bash_command (RunOutcome.completed o e rc) =
      ⟨some o, e, rc, rc == 0⟩) ∧
    (∀ o e rc, execute_python_code (RunOutcome.completed o e rc) =
      ⟨some o, e, rc, rc == 0⟩) ∧
    (∀ so, execute_bash_command (RunOutcome.timeout so) = ⟨so, "Timeout expired", -1, false⟩) ∧
    (∀ so, execute_python_code (RunOutcome.timeout so) = ⟨so, "Timeout expired", -1, false⟩) ∧
    (∀ m, execute_bash_command (RunOutcome.failed m) = ⟨some "", m, -1, false⟩) ∧
    (∀ m, execute_python_code (RunOutcome.failed m) = ⟨some "", m, -1, false⟩) ∧
    bashTimeoutSeconds = 10 ∧ pythonTimeoutSeconds = 10 := by
  refine ⟨fun o => ?_, fun o => ?_, fun o e rc => rfl, fun o e rc => rfl, fun so => rfl,
    fun so => rfl, fun m => rfl, fun m => rfl, rfl, rfl⟩ <;> cases o <;> rfl

/-- Claim C9: `clear_history()` leaves exactly one message — the system
message carrying the initial prompt — regardless of the prior history. -/
theorem clear_history_singleton (st : LLMClientState) :
    (clear_history st).history = [Msg.mk "system" st.initialPrompt] ∧
    (clear_history st).history.length = 1 := ⟨rfl, rfl⟩

/-- Claim C10: an auto-indexed `write_to_file` (part index `None`) stores
the content under the key `str(n)` where `n` is the current number of parts
(first two conjuncts), so whenever that key already exists — as after
deleting an earlier part — the write overwrites the existing part and the
number of parts does not grow (third conjunct). -/
theorem write_to_file_auto_index_overwrites (fs : VFS) (name content : String) :
    partsOf (write_to_file fs name content Option.none) name =
      assocSet (partsOf fs name) (toString ((partsOf fs name).length : Int)) content ∧
    List.lookup (toString ((partsOf fs name).length : Int))
      (partsOf (write_to_file fs name content Option.none) name) = some content ∧
    (hasKey (partsOf fs name) (toString ((partsOf fs name).length : Int)) = true →
      (partsOf (write_to_file fs name content Option.none) name).length =
        (partsOf fs name).length) := by
  have hparts : partsOf (write_to_file fs name content Option.none) name =
      assocSet (partsOf fs name) (toString ((partsOf fs name).length : Int)) content := by
    by_cases hk : hasKey fs.files name
    · simp only [write_to_file, hk, if_true, partsOf, Option.getD]
      rw [assocSet_lookup_self]
    · have hl : List.lookup name fs.files = Option.none :=
        lookup_eq_none_of_hasKey_false _ _ (by simpa using hk)
      simp only [write_to_file, hk, Bool.false_eq_true, if_false, create_file, partsOf, hl]
      simp [assocSet_lookup_self]
  refine ⟨hparts, ?_, ?_⟩
  · rw [hparts]
    exact assocSet_lookup_self _ _ _
  · intro hhas
    rw [hparts]
    exact assocSet_length_of_hasKey _ _ _ hhas

/-- Claim C10, witness: after writing parts "0" and "1" of file "f" and
deleting part 0, only part "1" remains; the next auto-indexed write targets
the existing key "1" and overwrites it instead of creating a new part. -/
theorem write_to_file_auto_index_overwrites_witness :
    partsOf vfsGap "f" = [("1", "b")] ∧
    hasKey (partsOf vfsGap "f") (toString ((partsOf vfsGap "f").length : Int)) = true ∧
    List.lookup (toString ((partsOf vfsGap "f").length : Int))
      (partsOf (write_to_file vfsGap "f" "c" Option.none) "f") = some "c" ∧
    (partsOf (write_to_file vfsGap "f" "c" Option.none) "f").length =
      (partsOf vfsGap "f").length :=
  ⟨rfl, rfl, (write_to_file_auto_index_overwrites vfsGap "f" "c").2.1,
    (write_to_file_auto_index_overwrites vfsGap "f" "c").2.2 rfl⟩
